import Mathlib

/-!
Verification of the AI content-generation pipeline of the beackon-flow
backend (src/services/linkedinService.ts, src/services/openaiService.ts and
the linkedin controller).

The TypeScript code is shallowly embedded: JavaScript runtime values that
flow out of `JSON.parse` are modelled by the inductive `Json`; the OpenAI
chat-completion client is modelled by `generateChatCompletion`, whose
behaviour on one invocation (the provider throwing, returning no content, or
returning a text) is an explicit `CompletionOutcome` argument; `async` calls
that can throw become functions into `Except`, and a `try/catch` becomes a
`match` on the callee's result.  Every embedded function also returns the
list of outbound `ChatRequest`s it issued, so that "no model call is
attempted" and "which model/temperature the request carries" are statable.
-/

/-- JavaScript values produced by `JSON.parse`: null, booleans, numbers
(numeric payloads of the prompts/claims are integral, so `Int` suffices),
strings, arrays and objects.  Objects produced by `JSON.parse` bind each key
once, so an association list with first-match lookup is faithful. -/
inductive Json where
  | null
  | bool (b : Bool)
  | num (n : Int)
  | str (s : String)
  | arr (elems : List Json)
  | obj (fields : List (String × Json))

/-- JavaScript truthiness of a parsed JSON value: `null`, `false`, `0` and
the empty string are falsy; arrays and objects are always truthy. -/
def Json.truthy : Json → Bool
  | .null => false
  | .bool b => b
  | .num n => n != 0
  | .str s => s != ""
  | .arr _ => true
  | .obj _ => true

/-- Property access `j[k]`: a lookup on an object, `none` (undefined) on any
other value.  (Access on `null` throws in JavaScript; the embedding of each
function handles that case at its use site.) -/
def Json.getField : Json → String → Option Json
  | .obj fields, k => fields.lookup k
  | _, _ => none

/-- `j[k]` where the caller has already established the field is present;
defaults to `null`. -/
def Json.fieldD (j : Json) (k : String) : Json :=
  (j.getField k).getD .null

/-- The truthiness test `result.k` used by the guards
`if (!result.intro || ...)`: false when the field is absent or falsy. -/
def Json.truthyField (j : Json) (k : String) : Bool :=
  match j.getField k with
  | some v => v.truthy
  | none => false

/-- Escape of one character inside a JSON string literal
(JSON.stringify). -/
def jsonEscapeChar (c : Char) : String :=
  if c = '"' then "\\\"" else if c = '\\' then "\\\\"
  else if c = '\n' then "\\n" else if c = '\t' then "\\t"
  else if c = '\r' then "\\r" else String.singleton c

/-- Escape of a string for a JSON string literal. -/
def jsonEscape (s : String) : String := String.join (s.toList.map jsonEscapeChar)

/-- `JSON.stringify` of a parsed value, compact form.  (The source sometimes
asks for two-space pretty-printing, `JSON.stringify(x, null, 2)`; the
whitespace layout of a prompt is immaterial to every claim, so the compact
form stands for both.) -/
def Json.stringify : Json → String
  | .null => "null"
  | .bool b => cond b "true" "false"
  | .num n => toString n
  | .str s => "\"" ++ jsonEscape s ++ "\""
  | .arr xs => "[" ++ String.intercalate "," (xs.attach.map fun x => x.1.stringify) ++ "]"
  | .obj kvs =>
    "\x7b" ++
      String.intercalate ","
        (kvs.attach.map fun kv => "\"" ++ jsonEscape kv.1.1 ++ "\":" ++ kv.1.2.stringify) ++
      "\x7d"
decreasing_by
  · simp only [Json.arr.sizeOf_spec]
    have := List.sizeOf_lt_of_mem x.2
    omega
  · simp only [Json.obj.sizeOf_spec]
    have := List.sizeOf_lt_of_mem kv.2
    have h2 : sizeOf kv.1.2 < sizeOf kv.1 := by
      cases kv.1 with
      | mk k v => simp
    omega

/-- JavaScript string coercion `${x}` of a parsed value, as used by the
template literals that interpolate section contents. -/
def Json.jsString : Json → String
  | .null => "null"
  | .bool b => cond b "true" "false"
  | .num n => toString n
  | .str s => s
  | .arr xs => String.intercalate "," (xs.attach.map fun x => x.1.jsString)
  | .obj _ => "[object Object]"
decreasing_by
  · simp only [Json.arr.sizeOf_spec]
    have := List.sizeOf_lt_of_mem x.2
    omega

/-- The `PostSections` interface: the five named section fields.  The
interface declares them as strings, but at runtime they hold whatever the
parsed model response supplied (TypeScript types are erased), so the fields
are `Json` values. -/
structure PostSections where
  intro : Json
  main_insight : Json
  supporting_detail : Json
  shift_takeaway : Json
  cta : Json

/-- A section set as a JSON object, in the declared field order (used where
the source calls `JSON.stringify(sections, ...)`). -/
def PostSections.toJson (s : PostSections) : Json :=
  .obj [("intro", s.intro), ("main_insight", s.main_insight),
        ("supporting_detail", s.supporting_detail),
        ("shift_takeaway", s.shift_takeaway), ("cta", s.cta)]

/-- All five section fields are truthy (present, non-empty content). -/
def PostSections.complete (s : PostSections) : Bool :=
  s.intro.truthy && s.main_insight.truthy && s.supporting_detail.truthy &&
    s.shift_takeaway.truthy && s.cta.truthy

/-- The five section values of a parsed generation result
(`result.intro`, ..., `result.cta`). -/
def sectionsOfJson (j : Json) : PostSections :=
  ⟨j.fieldD "intro", j.fieldD "main_insight", j.fieldD "supporting_detail",
   j.fieldD "shift_takeaway", j.fieldD "cta"⟩

/-- The environment variables read by openaiService.ts. -/
structure Env where
  OPENAI_API_KEY : Option String
  OPEN_AI_MODEL : Option String

/-- JavaScript `v || d` on an optional string: the default applies when the
variable is unset or empty (falsy). -/
def jsOrDefault (v : Option String) (d : String) : String :=
  match v with
  | some s => if s = "" then d else s
  | none => d

/-- `OPEN_AI_MODEL = process.env.OPEN_AI_MODEL || 'gpt-5-2025-08-07'`. -/
def Env.defaultModel (env : Env) : String :=
  jsOrDefault env.OPEN_AI_MODEL "gpt-5-2025-08-07"

/-- `isOpenAIConfigured`: `!!process.env.OPENAI_API_KEY`. -/
def isOpenAIConfigured (env : Env) : Bool :=
  match env.OPENAI_API_KEY with
  | some s => s != ""
  | none => false

/-- One message of the outbound chat-completion request body. -/
structure ChatMessage where
  role : String
  content : String

/-- The request body `generateChatCompletion` hands to
`openai.chat.completions.create`.  The source includes only `model` and
`messages`; `temperature` is an `Option` so that the presence or absence of a
temperature field in the outbound request is statable — the source never
sets it (`none`). -/
structure ChatRequest where
  model : String
  messages : List ChatMessage
  temperature : Option Rat

/-- The completion backend's behaviour on one invocation: the API call
throws with a message, or a response arrives whose
`choices[0]?.message?.content` is absent (`reply none`) or a text. -/
inductive CompletionOutcome where
  | apiError (msg : String)
  | reply (content : Option String)

/-- The temperature the `temperature` parameter of `generateChatCompletion`
resolves to (TypeScript default parameter `temperature: number = 0.5`);
the resolved value is never placed in the outbound request. -/
def effectiveTemperature (temperature : Option Rat) : Rat :=
  temperature.getD (0.5 : Rat)

/-- `generateChatCompletion(systemPrompt, userPrompt, model?, temperature?)`
of openaiService.ts.  Returns the outbound requests it issued (none when the
key is unconfigured, since the guard throws before the network call) and the
result: the trimmed content, or the wrapped error message the catch block
rethrows.  Note the request body carries only `model` and `messages` — the
`temperature` parameter is accepted and defaulted but not forwarded. -/
def generateChatCompletion (env : Env) (outcome : CompletionOutcome)
    (systemPrompt userPrompt : String) (model : Option String) (temperature : Option Rat) :
    List ChatRequest × Except String String :=
  let m := model.getD env.defaultModel
  let _resolvedTemperature := effectiveTemperature temperature
  if isOpenAIConfigured env then
    let req : ChatRequest :=
      ⟨m, [⟨"system", systemPrompt⟩, ⟨"user", userPrompt⟩], none⟩
    match outcome with
    | .apiError msg => ([req], .error ("OpenAI completion failed: " ++ msg))
    | .reply none =>
      ([req], .error "OpenAI completion failed: No content returned from OpenAI")
    | .reply (some c) => ([req], .ok c.trim)
  else
    ([], .error "OpenAI completion failed: OpenAI API key not configured")

/-- The system prompt of `generateHooksFromTopic`. -/
def hooksSystemPrompt : String := "You are an expert LinkedIn content creator specializing in creating engaging hooks that capture attention.

Your task is to generate 3-5 compelling hooks for LinkedIn posts based on the given topic.

Guidelines:
- Each hook should be 1-2 sentences maximum
- Hooks should be attention-grabbing and make people want to read more
- Use proven hook formulas (questions, bold statements, curiosity gaps, controversy, etc.)
- Make them relevant to the professional audience on LinkedIn
- Vary the style across different hooks

Return ONLY a JSON array of strings, nothing else. Example format:
[\"Hook 1 text here\", \"Hook 2 text here\", \"Hook 3 text here\"]"

/-- The user prompt of `generateHooksFromTopic`: the topic, plus the profile
context when a truthy profile was supplied. -/
def hooksUserPrompt (topic : String) (userProfile : Option Json) : String :=
  "Topic: " ++ topic ++
    match userProfile with
    | some p => if p.truthy then "\n\nUser Context: " ++ p.stringify else ""
    | none => ""

/-- (model, temperature) arguments `generateHooksFromTopic` passes to the
client: both omitted at the call site. -/
def hooksCallArgs : Option String × Option Rat := (none, none)

/-- The single client invocation of `generateHooksFromTopic`. -/
def hooksCall (env : Env) (outcome : CompletionOutcome) (topic : String)
    (userProfile : Option Json) : List ChatRequest × Except String String :=
  generateChatCompletion env outcome hooksSystemPrompt (hooksUserPrompt topic userProfile)
    hooksCallArgs.1 hooksCallArgs.2

/-- The distinguishable failures of `generateHooksFromTopic` (the source
rethrows each as `Failed to generate hooks: ...` with the inner message):
the client call threw; `JSON.parse` threw; the parsed value is not an
array (`Invalid response format from AI`). -/
inductive HooksError where
  | providerFailure (msg : String)
  | parseFailure
  | notAnArray
deriving DecidableEq, Repr

/-- The spec's `MalformedGenerationOutput` kind: the response did not parse,
or parsed to a value that is not an array. -/
def HooksError.isMalformedGenerationOutput : HooksError → Bool
  | .parseFailure => true
  | .notAnArray => true
  | .providerFailure _ => false

/-- `generateHooksFromTopic(topic, userProfile?)`: one client call, strict
parse of the response as a JSON array, no validation of the elements. -/
def generateHooksFromTopic (env : Env) (parseJson : String → Option Json)
    (outcome : CompletionOutcome) (topic : String) (userProfile : Option Json) :
    List ChatRequest × Except HooksError (List Json) :=
  let call := hooksCall env outcome topic userProfile
  match call.2 with
  | .error msg => (call.1, .error (.providerFailure msg))
  | .ok response =>
    match parseJson response with
    | none => (call.1, .error .parseFailure)
    | some (.arr hooks) => (call.1, .ok hooks)
    | some _ => (call.1, .error .notAnArray)

/-- `REFINEMENT_MODEL`: the model used by the refinement stages. -/
def REFINEMENT_MODEL : String := "gpt-5.1"

/-- The system prompt of `refinePostVoice`. -/
def voiceSystemPrompt : String := "You are the Voice + Originality editor. Your job is to transform raw AI-generated LinkedIn content into something that sounds authentically human.

This is your creative engine — the agent that FIXES everything large language models struggle with.

Your tasks:
- Remove clichés and predictable AI fingerprints
- Eliminate self-help-guru phrasing (no \"game-changer\", \"unlock your potential\", etc.)
- Tighten rhythm and phrasing - make every word earn its place
- Add metaphor, imagery, sensory language where appropriate
- Increase human tone and flow - it should feel like a real person wrote it
- Make wording punchy instead of padded

This is where the \"voice\" is built. It is the single most important part of the entire writing system.

IMPORTANT: Maintain the SAME structure and approximate length for each section. Do not add or remove sections.

Return ONLY a valid JSON object with the exact same structure:
\x7b
  \"intro\": \"refined intro here...\",
  \"main_insight\": \"refined main insight here...\",
  \"supporting_detail\": \"refined supporting detail here...\",
  \"shift_takeaway\": \"refined takeaway here...\",
  \"cta\": \"refined cta here...\"
\x7d"

/-- The user prompt of `refinePostVoice`. -/
def voiceUserPrompt (sections : PostSections) (hook topic : String) : String :=
  "Topic: " ++ topic ++ "\nHook: " ++ hook ++
    "\n\nCurrent post sections to refine:\n" ++ sections.toJson.stringify ++
    "\n\nApply voice and originality refinement to make this sound authentically human."

/-- (model, temperature) arguments `refinePostVoice` passes to the client. -/
def voiceCallArgs : Option String × Option Rat := (some REFINEMENT_MODEL, some (0.7 : Rat))

/-- The single client invocation of `refinePostVoice`. -/
def voiceCall (env : Env) (outcome : CompletionOutcome) (sections : PostSections)
    (hook topic : String) : List ChatRequest × Except String String :=
  generateChatCompletion env outcome voiceSystemPrompt (voiceUserPrompt sections hook topic)
    voiceCallArgs.1 voiceCallArgs.2

/-- `refinePostVoice(sections, hook, topic)`.  Any client failure and any
`JSON.parse` failure lands in the catch block, which returns the input
sections; a parsed response with a missing or falsy section field takes the
incomplete-sections branch, which also returns the input sections.  (A
parsed `null` throws on the first property access in the source; that throw
is caught by the same catch block and likewise yields the input sections,
which is the value this embedding's falsy-field branch produces.) -/
def refinePostVoice (env : Env) (parseJson : String → Option Json)
    (outcome : CompletionOutcome) (sections : PostSections) (hook topic : String) :
    List ChatRequest × PostSections :=
  let call := voiceCall env outcome sections hook topic
  match call.2 with
  | .error _ => (call.1, sections)
  | .ok response =>
    match parseJson response with
    | none => (call.1, sections)
    | some refined =>
      if refined.truthyField "intro" && refined.truthyField "main_insight" &&
          refined.truthyField "supporting_detail" && refined.truthyField "shift_takeaway" &&
          refined.truthyField "cta" then
        (call.1, sectionsOfJson refined)
      else (call.1, sections)

/-- The system prompt of `refinePostLogic`. -/
def logicSystemPrompt : String := "You are the Logic + Authority editor. Your job is to merge editorial intelligence with strategic clarity.

This agent ensures the post is not only original — but actually good.

Your tasks:
- Remove contradictions
- Tighten pacing
- Fix confusing jumps between ideas
- Increase skim-ability (this is a LinkedIn must-have)
- Add concrete examples, micro-stories, or light stats where needed
- Strengthen clarity and logical progression
- Ensure the post makes a sharp, readable point
- Remove repetition and filler

You are the editor and strategist in one.

IMPORTANT: Maintain the SAME structure and approximate length for each section. Do not add or remove sections.

Return ONLY a valid JSON object with the exact same structure:
\x7b
  \"intro\": \"polished intro here...\",
  \"main_insight\": \"polished main insight here...\",
  \"supporting_detail\": \"polished supporting detail here...\",
  \"shift_takeaway\": \"polished takeaway here...\",
  \"cta\": \"polished cta here...\"
\x7d"

/-- The user prompt of `refinePostLogic`. -/
def logicUserPrompt (sections : PostSections) (hook topic : String) : String :=
  "Topic: " ++ topic ++ "\nHook: " ++ hook ++
    "\n\nCurrent post sections to polish:\n" ++ sections.toJson.stringify ++
    "\n\nApply logic and authority refinement to make this clear, skimmable, and impactful."

/-- (model, temperature) arguments `refinePostLogic` passes to the client. -/
def logicCallArgs : Option String × Option Rat := (some REFINEMENT_MODEL, some (0.5 : Rat))

/-- The single client invocation of `refinePostLogic`. -/
def logicCall (env : Env) (outcome : CompletionOutcome) (sections : PostSections)
    (hook topic : String) : List ChatRequest × Except String String :=
  generateChatCompletion env outcome logicSystemPrompt (logicUserPrompt sections hook topic)
    logicCallArgs.1 logicCallArgs.2

/-- `refinePostLogic(sections, hook, topic)`: same shape and same fallback
policy as `refinePostVoice`. -/
def refinePostLogic (env : Env) (parseJson : String → Option Json)
    (outcome : CompletionOutcome) (sections : PostSections) (hook topic : String) :
    List ChatRequest × PostSections :=
  let call := logicCall env outcome sections hook topic
  match call.2 with
  | .error _ => (call.1, sections)
  | .ok response =>
    match parseJson response with
    | none => (call.1, sections)
    | some polished =>
      if polished.truthyField "intro" && polished.truthyField "main_insight" &&
          polished.truthyField "supporting_detail" && polished.truthyField "shift_takeaway" &&
          polished.truthyField "cta" then
        (call.1, sectionsOfJson polished)
      else (call.1, sections)

/-- The system prompt of `refineSingleSection`. -/
def singleSectionSystemPrompt : String := "You are a combined Voice + Logic editor for LinkedIn content. Your job is to refine a single section of a post.

Voice refinement tasks:
- Remove clichés and AI fingerprints
- Eliminate self-help-guru phrasing
- Tighten rhythm and phrasing
- Add metaphor/imagery where appropriate
- Make it sound authentically human

Logic refinement tasks:
- Remove contradictions
- Fix confusing jumps
- Increase skim-ability
- Strengthen clarity
- Remove repetition and filler

The section must flow naturally with the rest of the post.

CRITICAL: Return ONLY the refined text content for this section. No JSON, no labels, no quotes around it. Just the raw refined text."

/-- The user prompt of `refineSingleSection`. -/
def singleSectionUserPrompt (sectionKey rawContent hook topic : String)
    (currentSections : PostSections) : String :=
  "Topic: " ++ topic ++ "\nHook: " ++ hook ++
    "\n\nFull post context:\n- Intro: " ++ currentSections.intro.jsString ++
    "\n- Main Insight: " ++ currentSections.main_insight.jsString ++
    "\n- Supporting Detail: " ++ currentSections.supporting_detail.jsString ++
    "\n- Takeaway: " ++ currentSections.shift_takeaway.jsString ++
    "\n- CTA: " ++ currentSections.cta.jsString ++
    "\n\nSection to refine: " ++ sectionKey ++
    "\nRaw content: " ++ rawContent ++
    "\n\nRefine this section to sound human, clear, and impactful while maintaining flow with the rest of the post."

/-- (model, temperature) arguments `refineSingleSection` passes to the
client. -/
def singleSectionCallArgs : Option String × Option Rat := (some REFINEMENT_MODEL, some (0.6 : Rat))

/-- The single client invocation of `refineSingleSection`. -/
def singleSectionCall (env : Env) (outcome : CompletionOutcome)
    (sectionKey rawContent hook topic : String) (currentSections : PostSections) :
    List ChatRequest × Except String String :=
  generateChatCompletion env outcome singleSectionSystemPrompt
    (singleSectionUserPrompt sectionKey rawContent hook topic currentSections)
    singleSectionCallArgs.1 singleSectionCallArgs.2

/-- `refineSingleSection(sectionKey, rawContent, hook, topic, currentSections)`:
the combined voice+logic polish of one section.  Returns the trimmed client
response; on any client failure the catch block returns the original raw
content. -/
def refineSingleSection (env : Env) (outcome : CompletionOutcome)
    (sectionKey rawContent hook topic : String) (currentSections : PostSections) :
    List ChatRequest × String :=
  let call := singleSectionCall env outcome sectionKey rawContent hook topic currentSections
  match call.2 with
  | .error _ => (call.1, rawContent)
  | .ok response => (call.1, response.trim)

/-- The framework-to-instruction mapping of `generatePostFromHook`. -/
def frameworkInstructions : List (String × String) := [
  ("Story → Insight → Shift",
   "Share a personal story or example, extract a key insight from it, then show how that insight shifts perspective or challenges assumptions."),
  ("Problem → Stakes → Solution",
   "Clearly state the problem, explain why it matters and what's at risk if ignored, then present your solution or approach."),
  ("Insight → Proof → Takeaway",
   "Lead with a surprising or valuable insight, back it up with evidence or examples, then provide a clear actionable takeaway."),
  ("Identity Gap → Mirror → Reframe",
   "Highlight a disconnect between how people see themselves and reality, hold up a mirror to show the truth, then reframe how they should think about it."),
  ("Contrarian Take → Explanation → New Rule",
   "Present a contrarian or unpopular opinion, explain your reasoning thoroughly, then propose a new way of thinking or rule to follow."),
  ("Before → After → Lesson",
   "Describe the \"before\" state or situation, show the \"after\" transformation or result, then share the key lesson learned."),
  ("Claim → Evidence → Example",
   "Make a bold claim or statement, provide supporting evidence or data, then illustrate with a concrete example."),
  ("List Format (3-5 punchy points)",
   "Create a numbered or bulleted list of 3-5 key points, each one concise and valuable. Make each point actionable or insightful."),
  ("Fast Rant → Clarifier → Resolution",
   "Start with an energetic rant about something frustrating, clarify what you really mean or the core issue, then offer a constructive resolution or path forward.")]

/-- JavaScript truthiness of an optional string (`intention ? ... : ...`):
false when absent or empty. -/
def optStrTruthy (o : Option String) : Bool :=
  match o with
  | some s => s != ""
  | none => false

/-- The property keys a plain JavaScript object literal inherits from
`Object.prototype`: bracket access at one of these keys on an object that
has no own property of that name still finds a truthy member (a function,
or for `__proto__` the prototype object itself). -/
def objectPrototypeKeys : List String :=
  ["constructor", "hasOwnProperty", "isPrototypeOf", "propertyIsEnumerable",
   "toLocaleString", "toString", "valueOf", "__proto__",
   "__defineGetter__", "__defineSetter__", "__lookupGetter__", "__lookupSetter__"]

/-- The template-literal coercion of the inherited `Object.prototype` member
found at key `k`: the standard native-function string form, and the object
form for `__proto__`.  (No claim inspects this text; only the member's
truthiness and non-emptiness matter.) -/
def objectPrototypeMemberString (k : String) : String :=
  if k = "__proto__" then "[object Object]"
  else if k = "constructor" then "function Object() \x7b [native code] \x7d"
  else "function " ++ k ++ "() \x7b [native code] \x7d"

/-- The JavaScript bracket access `frameworkInstructions[intention]`: an own
property of the object literal when the key is one of the nine labels, else
the truthy member inherited from `Object.prototype` when the key is one of
its property names, else undefined. -/
def frameworkInstructionsAccess (k : String) : Option String :=
  match frameworkInstructions.lookup k with
  | some v => some v
  | none =>
    if k ∈ objectPrototypeKeys then some (objectPrototypeMemberString k) else none

/-- `frameworkGuidance`: the structural instruction block appended to the
base-generation system prompt — built whenever the intention is truthy and
the bracket access `frameworkInstructions[intention]` finds a truthy value,
which happens for the nine catalog labels (their instruction strings) and
also for keys inherited from `Object.prototype` (`constructor`, `toString`,
...), whose inherited member is interpolated as the "pattern". -/
def frameworkGuidance (intention : Option String) : String :=
  match intention with
  | some i =>
    if i = "" then ""
    else
      match frameworkInstructionsAccess i with
      | some instr =>
        "\n\nIMPORTANT - Follow this content framework: \"" ++ i ++
          "\"\nStructure your post sections using this pattern: " ++ instr
      | none => ""
  | none => ""

/-- The system prompt of `generatePostFromHook`. -/
def basegenSystemPrompt (intention : Option String) : String :=
  "You are an expert LinkedIn content creator who writes engaging, professional posts.

Your task is to create LinkedIn post content in STRUCTURED SECTIONS based on the given hook and topic." ++ frameworkGuidance intention ++ "

The hook is already provided and will be used as-is. You need to generate the remaining sections that flow naturally from the hook.

Guidelines for each section:
- intro: Introduction that connects to the hook and sets up the problem/context (1-2 sentences)
- main_insight: The core insight, main point, or key message (2-3 sentences)
- supporting_detail: Evidence, proof, example, visualization description, or quote that supports the main insight (2-3 sentences)
- shift_takeaway: A perspective shift or key takeaway for the reader (1-2 sentences)
- cta: A call-to-action or engaging question to encourage comments (1 sentence)

Overall guidelines:
- Each section should flow naturally into the next
- Use professional yet conversational tone
- Include relevant emojis sparingly (1-2 total across all sections)
- Keep total content under 1000 characters (hook adds ~200 more)
" ++ (if optStrTruthy intention then
        "- Structure the content following the \"" ++ intention.getD "" ++ "\" framework pattern"
      else "") ++ "

Guidelines for design idea:
- Suggest a simple visual or graphic idea that complements the post
- Keep it practical and easy to create

Return ONLY a JSON object with this exact format:
\x7b
  \"intro\": \"Introduction/problem statement here...\",
  \"main_insight\": \"Core insight or main point here...\",
  \"supporting_detail\": \"Evidence, proof, or example here...\",
  \"shift_takeaway\": \"Key takeaway or perspective shift here...\",
  \"cta\": \"Call-to-action or question here...\",
  \"design_idea\": \"Description of visual/design suggestion here\"
\x7d"

/-- The user prompt of `generatePostFromHook`. -/
def basegenUserPrompt (hook topic : String) (intention : Option String)
    (userProfile : Option Json) : String :=
  "Hook (will be used as-is at the start of the post): \"" ++ hook ++ "\"

Topic: " ++ topic ++
    (if optStrTruthy intention then "\n\nContent Framework: " ++ intention.getD "" else "") ++
    (match userProfile with
     | some p => if p.truthy then "\n\nUser Context: " ++ p.stringify else ""
     | none => "")

/-- (model, temperature) arguments `generatePostFromHook` passes to the
client for the base generation call: both omitted. -/
def baseCallArgs : Option String × Option Rat := (none, none)

/-- The base-generation client invocation of `generatePostFromHook`. -/
def baseCall (env : Env) (outcome : CompletionOutcome) (hook topic : String)
    (intention : Option String) (userProfile : Option Json) :
    List ChatRequest × Except String String :=
  generateChatCompletion env outcome (basegenSystemPrompt intention)
    (basegenUserPrompt hook topic intention userProfile) baseCallArgs.1 baseCallArgs.2

/-- The distinguishable failures of `generatePostFromHook` (each rethrown by
the source as `Failed to generate post: ...` with the inner message):
the client call threw; `JSON.parse` threw; the parsed value is `null`, so
the guard's first property access throws a TypeError; the explicit
`Invalid response format from AI - missing required sections` throw when a
required field is absent or falsy. -/
inductive PostError where
  | providerFailure (msg : String)
  | parseFailure
  | nullAccess
  | incompleteGeneration
deriving DecidableEq, Repr

/-- `generatePostFromHook(hook, topic, intention?, userProfile?)`: base
generation (4A), the explicit six-field guard on the parsed object, then the
voice (4B) and logic (4C) refinement passes applied to the raw sections, and
the refined sections plus `design_idea` returned. -/
def generatePostFromHook (env : Env) (parseJson : String → Option Json)
    (baseOutcome voiceOutcome logicOutcome : CompletionOutcome)
    (hook topic : String) (intention : Option String) (userProfile : Option Json) :
    List ChatRequest × Except PostError (PostSections × Json) :=
  let call := baseCall env baseOutcome hook topic intention userProfile
  match call.2 with
  | .error msg => (call.1, .error (.providerFailure msg))
  | .ok response =>
    match parseJson response with
    | none => (call.1, .error .parseFailure)
    | some .null => (call.1, .error .nullAccess)
    | some result =>
      if result.truthyField "intro" && result.truthyField "main_insight" &&
          result.truthyField "supporting_detail" && result.truthyField "shift_takeaway" &&
          result.truthyField "cta" && result.truthyField "design_idea" then
        let rawSections := sectionsOfJson result
        let voice := refinePostVoice env parseJson voiceOutcome rawSections hook topic
        let logic := refinePostLogic env parseJson logicOutcome voice.2 hook topic
        (call.1 ++ voice.1 ++ logic.1, .ok (logic.2, result.fieldD "design_idea"))
      else (call.1, .error .incompleteGeneration)

/-- The closed nine-entry framework catalog of `recommendIntention`. -/
def frameworks : List String := [
  "Story → Insight → Shift",
  "Problem → Stakes → Solution",
  "Insight → Proof → Takeaway",
  "Identity Gap → Mirror → Reframe",
  "Contrarian Take → Explanation → New Rule",
  "Before → After → Lesson",
  "Claim → Evidence → Example",
  "List Format (3-5 punchy points)",
  "Fast Rant → Clarifier → Resolution"]

/-- The system prompt of `recommendIntention`. -/
def recommendSystemPrompt : String := "You are a LinkedIn content strategist expert. Your task is to analyze a hook and topic, then recommend the BEST content framework from the provided list.

Consider:
- Which framework naturally fits the hook's style and tone
- What would create the most engaging and valuable post
- What structure would best deliver insights on the topic
- Professional LinkedIn audience expectations

Respond with ONLY the exact framework name from the list, nothing else."

/-- The user prompt of `recommendIntention`. -/
def recommendUserPrompt (hook topic : String) : String :=
  "Hook: \"" ++ hook ++ "\"\nTopic: \"" ++ topic ++ "\"\n\nAvailable frameworks:\n" ++
    String.intercalate "\n"
      (frameworks.enum.map fun p => toString (p.1 + 1) ++ ". " ++ p.2) ++
    "\n\nRecommend the best framework:"

/-- (model, temperature) arguments `recommendIntention` passes to the
client: both omitted at the call site. -/
def recommendCallArgs : Option String × Option Rat := (none, none)

/-- The single client invocation of `recommendIntention`. -/
def recommendCall (env : Env) (outcome : CompletionOutcome) (hook topic : String) :
    List ChatRequest × Except String String :=
  generateChatCompletion env outcome recommendSystemPrompt (recommendUserPrompt hook topic)
    recommendCallArgs.1 recommendCallArgs.2

/-- `recommendIntention(hook, topic)`: trims the response, validates it
against the catalog, and substitutes the default framework
`Problem → Stakes → Solution` both when the validation fails and when the
client call throws (the catch block). -/
def recommendIntention (env : Env) (outcome : CompletionOutcome) (hook topic : String) :
    List ChatRequest × String :=
  let call := recommendCall env outcome hook topic
  match call.2 with
  | .error _ => (call.1, "Problem → Stakes → Solution")
  | .ok response =>
    let intention := response.trim
    if frameworks.contains intention then (call.1, intention)
    else (call.1, "Problem → Stakes → Solution")

/-- `SECTION_DESCRIPTIONS`: the per-key requirements table used by
`regenerateSection`. -/
def SECTION_DESCRIPTIONS : List (String × String) := [
  ("intro", "Introduction that connects to the hook and sets up the problem/context (1-2 sentences)"),
  ("main_insight", "The core insight, main point, or key message (2-3 sentences)"),
  ("supporting_detail", "Evidence, proof, example, visualization description, or quote that supports the main insight (2-3 sentences)"),
  ("shift_takeaway", "A perspective shift or key takeaway for the reader (1-2 sentences)"),
  ("cta", "A call-to-action or engaging question to encourage comments (1 sentence)")]

/-- The JavaScript bracket access `SECTION_DESCRIPTIONS[sectionKey]`: an own
entry of the table for the five section keys, else the member inherited from
`Object.prototype` when the key is one of its property names, else
undefined. -/
def sectionDescriptionAccess (k : String) : Option String :=
  match SECTION_DESCRIPTIONS.lookup k with
  | some v => some v
  | none =>
    if k ∈ objectPrototypeKeys then some (objectPrototypeMemberString k) else none

/-- The system prompt of `regenerateSection`.  The description access is
unguarded in the source (`SECTION_DESCRIPTIONS[sectionKey]` — the parameter
type restricts the key at compile time only); a key outside the table
interpolates its inherited `Object.prototype` member, or the text
`undefined` when there is none. -/
def regenSystemPrompt (sectionKey : String) : String :=
  "You are an expert LinkedIn content creator. Your task is to regenerate ONE specific section of a LinkedIn post while keeping it coherent with the other sections.

You are regenerating the \"" ++ sectionKey ++ "\" section.

Section requirements:
" ++ (sectionDescriptionAccess sectionKey).getD "undefined" ++ "

Guidelines:
- Make it different from the current version but maintain coherence with the rest of the post
- Use professional yet conversational tone
- Keep the same general message but express it differently
- You may add 1 emoji if appropriate
- Ensure it flows naturally with the sections before and after it

CRITICAL: Return ONLY the raw content text for this section.
DO NOT include:
- Section names or labels (like \"INTRO:\", \"Main Insight:\", etc.)
- Quotes around the text
- Any prefixes or formatting markers

Just output the actual content that would appear in the post, nothing else."

/-- The user prompt of `regenerateSection`. -/
def regenUserPrompt (sectionKey hook topic : String) (currentSections : PostSections)
    (intention : Option String) : String :=
  "Topic: " ++ topic ++ "\n" ++
    (if optStrTruthy intention then "Content Framework: " ++ intention.getD "" else "") ++
    "\n\nCurrent post structure:\n---\nHOOK: " ++ hook ++
    "\n\nINTRO: " ++ currentSections.intro.jsString ++
    "\n\nMAIN INSIGHT: " ++ currentSections.main_insight.jsString ++
    "\n\nSUPPORTING DETAIL: " ++ currentSections.supporting_detail.jsString ++
    "\n\nTAKEAWAY: " ++ currentSections.shift_takeaway.jsString ++
    "\n\nCTA: " ++ currentSections.cta.jsString ++
    "\n---\n\nPlease generate a NEW version of the \"" ++ sectionKey ++
    "\" section that is different from the current one but flows well with the other sections."

/-- (model, temperature) arguments `regenerateSection` passes to the client
for the raw regeneration call: both omitted. -/
def regenCallArgs : Option String × Option Rat := (none, none)

/-- The raw-regeneration client invocation of `regenerateSection`. -/
def regenCall (env : Env) (outcome : CompletionOutcome) (sectionKey hook topic : String)
    (currentSections : PostSections) (intention : Option String) :
    List ChatRequest × Except String String :=
  generateChatCompletion env outcome (regenSystemPrompt sectionKey)
    (regenUserPrompt sectionKey hook topic currentSections intention)
    regenCallArgs.1 regenCallArgs.2

/-- `regenerateSection(sectionKey, hook, topic, currentSections, intention?)`
of linkedinService.ts: generates raw content for the target section, then
applies the combined single-section polish to `rawSection.trim()`.  Only a
failure of the raw generation call reaches the catch block and is rethrown
(`Failed to regenerate section: ...`); `refineSingleSection` absorbs its own
failures. -/
def regenerateSection (env : Env) (genOutcome refineOutcome : CompletionOutcome)
    (sectionKey hook topic : String) (currentSections : PostSections)
    (intention : Option String) : List ChatRequest × Except String String :=
  let call := regenCall env genOutcome sectionKey hook topic currentSections intention
  match call.2 with
  | .error msg => (call.1, .error ("Failed to regenerate section: " ++ msg))
  | .ok rawSection =>
    let refined := refineSingleSection env refineOutcome sectionKey rawSection.trim
      hook topic currentSections
    (call.1 ++ refined.1, .ok refined.2)

/-- What the `regeneratePostSection` controller sends back: a 400 validation
response, a 500 from the catch block, or the 200 payload. -/
inductive ControllerResponse where
  | badRequest (message : String)
  | serverError (message : String)
  | success (sectionKey content : String)
deriving DecidableEq, Repr

/-- The controller's list of valid section keys. -/
def validSections : List String :=
  ["intro", "main_insight", "supporting_detail", "shift_takeaway", "cta"]

/-- The `regeneratePostSection` controller (the body field `section` is
named `sectionKey` here; `section` is reserved in Lean).  The section key is
validated against `validSections` first — before the hook/topic/sections
checks and before any call into the service, so an invalid key never reaches
the completion client.  The `typeof`-string checks of the source are
satisfied by this embedding's types, leaving the emptiness checks. -/
def regeneratePostSection (env : Env) (genOutcome refineOutcome : CompletionOutcome)
    (sectionKey hook topic : String) (currentSections : PostSections)
    (intention : Option String) : List ChatRequest × ControllerResponse :=
  if sectionKey == "" || !(validSections.contains sectionKey) then
    ([], .badRequest ("Invalid section. Must be one of: " ++
      String.intercalate ", " validSections))
  else if hook == "" || hook.trim == "" then
    ([], .badRequest "Hook is required and must be a non-empty string")
  else if topic == "" || topic.trim == "" then
    ([], .badRequest "Topic is required and must be a non-empty string")
  else
    let call := regenerateSection env genOutcome refineOutcome sectionKey hook.trim
      topic.trim currentSections (intention.map String.trim)
    match call.2 with
    | .error msg => (call.1, .serverError msg)
    | .ok content => (call.1, .success sectionKey content)

/-! ### Helper lemmas and witness fixtures -/

/-- A configured environment used by the concrete witnesses. -/
def envW : Env := ⟨some "sk-test", none⟩

/-- A well-formed five-section input used by the concrete witnesses. -/
def secsW : PostSections := ⟨.str "i0", .str "m0", .str "s0", .str "t0", .str "c0"⟩

/-- A parse oracle for witnesses that never exercise a successful parse. -/
def parseNoneW : String → Option Json := fun _ => none

theorem trim_fix_garbage : "garbage".trim = "garbage" := by
  rw [String.trim, Substring.trim, Substring.takeWhileAux, Substring.takeRightWhileAux]
  decide

theorem trim_fix_X : "X".trim = "X" := by
  rw [String.trim, Substring.trim, Substring.takeWhileAux, Substring.takeRightWhileAux]
  decide

theorem trim_fix_RAW : "RAW".trim = "RAW" := by
  rw [String.trim, Substring.trim, Substring.takeWhileAux, Substring.takeRightWhileAux]
  decide

theorem trim_fix_brackets : "[]".trim = "[]" := by
  rw [String.trim, Substring.trim, Substring.takeWhileAux, Substring.takeRightWhileAux]
  decide

theorem trim_fix_BASE : "BASE".trim = "BASE" := by
  rw [String.trim, Substring.trim, Substring.takeWhileAux, Substring.takeRightWhileAux]
  decide

theorem trim_fix_VOICE : "VOICE".trim = "VOICE" := by
  rw [String.trim, Substring.trim, Substring.takeWhileAux, Substring.takeRightWhileAux]
  decide

/-- A truthy field stays truthy after the defaulting read. -/
theorem Json.truthy_fieldD {j : Json} {k : String} (h : j.truthyField k = true) :
    (j.fieldD k).truthy = true := by
  unfold Json.truthyField at h
  unfold Json.fieldD
  cases hm : j.getField k with
  | none => rw [hm] at h; exact absurd h (by simp)
  | some v => rw [hm] at h; simpa using h

/-- A missing field is not truthy. -/
theorem Json.truthyField_of_missing {j : Json} {k : String} (h : j.getField k = none) :
    j.truthyField k = false := by
  unfold Json.truthyField
  rw [h]

/-- The five section field keys of the `PostSections` data model. -/
def sectionFieldKeys : List String :=
  ["intro", "main_insight", "supporting_detail", "shift_takeaway", "cta"]

/-- C1: for every five-section input, whenever the refinement client call
fails, or its parsed response is missing any of the five section keys,
`refinePostVoice` and `refinePostLogic` each return the exact input sections
unchanged.  (Neither function can propagate an error: their embedding is
total into `PostSections`, mirroring the source's catch-all blocks.) -/
theorem refineVoice_refineLogic_degrade_to_input (env : Env)
    (parseJson : String → Option Json) (outcome : CompletionOutcome)
    (sections : PostSections) (hook topic : String) :
    (∀ e, (voiceCall env outcome sections hook topic).2 = .error e →
        (refinePostVoice env parseJson outcome sections hook topic).2 = sections) ∧
    (∀ s j k, (voiceCall env outcome sections hook topic).2 = .ok s →
        parseJson s = some j → k ∈ sectionFieldKeys → j.getField k = none →
        (refinePostVoice env parseJson outcome sections hook topic).2 = sections) ∧
    (∀ e, (logicCall env outcome sections hook topic).2 = .error e →
        (refinePostLogic env parseJson outcome sections hook topic).2 = sections) ∧
    (∀ s j k, (logicCall env outcome sections hook topic).2 = .ok s →
        parseJson s = some j → k ∈ sectionFieldKeys → j.getField k = none →
        (refinePostLogic env parseJson outcome sections hook topic).2 = sections) := by
  refine ⟨?_, ?_, ?_, ?_⟩
  · intro e h
    unfold refinePostVoice
    simp only [h]
  · intro s j k hok hp hk hm
    fin_cases hk <;>
      · unfold refinePostVoice
        simp only [hok, hp]
        simp [Json.truthyField_of_missing hm]
  · intro e h
    unfold refinePostLogic
    simp only [h]
  · intro s j k hok hp hk hm
    fin_cases hk <;>
      · unfold refinePostLogic
        simp only [hok, hp]
        simp [Json.truthyField_of_missing hm]

/-- Witness for C1 at a concrete input: a failing backend leaves the
sections untouched in both stages. -/
theorem refineVoice_refineLogic_degrade_witness :
    (refinePostVoice envW parseNoneW (.apiError "backend down") secsW "hook" "topic").2 = secsW ∧
    (refinePostLogic envW parseNoneW (.apiError "backend down") secsW "hook" "topic").2 = secsW :=
  ⟨(refineVoice_refineLogic_degrade_to_input envW parseNoneW (.apiError "backend down")
      secsW "hook" "topic").1 "OpenAI completion failed: backend down" rfl,
   (refineVoice_refineLogic_degrade_to_input envW parseNoneW (.apiError "backend down")
      secsW "hook" "topic").2.2.1 "OpenAI completion failed: backend down" rfl⟩

/-- C2: for every hook/topic pair and every completion-backend behaviour,
`recommendIntention` returns a member of the nine-entry framework catalog;
when the client call fails, or the trimmed response is not exactly a catalog
entry, it returns the default framework `Problem → Stakes → Solution`. -/
theorem recommendIntention_always_in_catalog (env : Env) (outcome : CompletionOutcome)
    (hook topic : String) :
    (recommendIntention env outcome hook topic).2 ∈ frameworks ∧
    (∀ e, (recommendCall env outcome hook topic).2 = .error e →
        (recommendIntention env outcome hook topic).2 = "Problem → Stakes → Solution") ∧
    (∀ s, (recommendCall env outcome hook topic).2 = .ok s → s.trim ∉ frameworks →
        (recommendIntention env outcome hook topic).2 = "Problem → Stakes → Solution") := by
  refine ⟨?_, ?_, ?_⟩
  · unfold recommendIntention
    cases hc : (recommendCall env outcome hook topic).2 with
    | error e => simp only [hc]; decide
    | ok s =>
      simp only [hc]
      by_cases hm : s.trim ∈ frameworks
      · rw [if_pos (List.elem_iff.mpr hm)]
        exact hm
      · rw [if_neg (fun hcc => hm (List.elem_iff.mp hcc))]
        show "Problem → Stakes → Solution" ∈ frameworks
        decide
  · intro e h
    unfold recommendIntention
    simp only [h]
  · intro s h hm
    unfold recommendIntention
    simp only [h]
    rw [if_neg (fun hcc => hm (List.elem_iff.mp hcc))]

/-- Witness for C2 at concrete inputs: a failing backend and a garbage
response both yield the default framework, a catalog member. -/
theorem recommendIntention_always_in_catalog_witness :
    (recommendIntention envW (.apiError "down") "h" "t").2 ∈ frameworks ∧
    (recommendIntention envW (.apiError "down") "h" "t").2 = "Problem → Stakes → Solution" ∧
    (recommendIntention envW (.reply (some "garbage")) "h" "t").2 = "Problem → Stakes → Solution" :=
  ⟨(recommendIntention_always_in_catalog envW (.apiError "down") "h" "t").1,
   (recommendIntention_always_in_catalog envW (.apiError "down") "h" "t").2.1
     "OpenAI completion failed: down" rfl,
   (recommendIntention_always_in_catalog envW (.reply (some "garbage")) "h" "t").2.2
     "garbage"
     (by
       show (recommendCall envW (.reply (some "garbage")) "h" "t").2 = Except.ok "garbage"
       unfold recommendCall generateChatCompletion
       simp [isOpenAIConfigured, envW, trim_fix_garbage])
     (by rw [trim_fix_garbage]; decide)⟩

/-- A parsed object whose five section fields are all truthy yields a
complete section set. -/
theorem sectionsOfJson_complete {j : Json}
    (h1 : j.truthyField "intro" = true) (h2 : j.truthyField "main_insight" = true)
    (h3 : j.truthyField "supporting_detail" = true)
    (h4 : j.truthyField "shift_takeaway" = true) (h5 : j.truthyField "cta" = true) :
    (sectionsOfJson j).complete = true := by
  unfold sectionsOfJson PostSections.complete
  simp [Json.truthy_fieldD h1, Json.truthy_fieldD h2, Json.truthy_fieldD h3,
    Json.truthy_fieldD h4, Json.truthy_fieldD h5]

/-- Voice refinement preserves completeness: it either keeps the input
sections or replaces them by five truthy parsed fields. -/
theorem refinePostVoice_preserves_complete (env : Env) (parseJson : String → Option Json)
    (outcome : CompletionOutcome) (sections : PostSections) (hook topic : String)
    (h : sections.complete = true) :
    ((refinePostVoice env parseJson outcome sections hook topic).2).complete = true := by
  unfold refinePostVoice
  cases hc : (voiceCall env outcome sections hook topic).2 with
  | error e => simp only [hc]; simpa using h
  | ok s =>
    simp only [hc]
    cases hp : parseJson s with
    | none => simp only [hp]; simpa using h
    | some j =>
      simp only [hp]
      split
      next hb =>
        simp only [Bool.and_eq_true] at hb
        obtain ⟨⟨⟨⟨hb1, hb2⟩, hb3⟩, hb4⟩, hb5⟩ := hb
        simpa using sectionsOfJson_complete hb1 hb2 hb3 hb4 hb5
      next => simpa using h

/-- Logic refinement preserves completeness, by the same argument. -/
theorem refinePostLogic_preserves_complete (env : Env) (parseJson : String → Option Json)
    (outcome : CompletionOutcome) (sections : PostSections) (hook topic : String)
    (h : sections.complete = true) :
    ((refinePostLogic env parseJson outcome sections hook topic).2).complete = true := by
  unfold refinePostLogic
  cases hc : (logicCall env outcome sections hook topic).2 with
  | error e => simp only [hc]; simpa using h
  | ok s =>
    simp only [hc]
    cases hp : parseJson s with
    | none => simp only [hp]; simpa using h
    | some j =>
      simp only [hp]
      split
      next hb =>
        simp only [Bool.and_eq_true] at hb
        obtain ⟨⟨⟨⟨hb1, hb2⟩, hb3⟩, hb4⟩, hb5⟩ := hb
        simpa using sectionsOfJson_complete hb1 hb2 hb3 hb4 hb5
      next => simpa using h

/-- The six keys `generatePostFromHook` requires of the parsed response. -/
def requiredGenerationKeys : List String :=
  ["intro", "main_insight", "supporting_detail", "shift_takeaway", "cta", "design_idea"]

/-- C3: `generatePostFromHook` fails with the incomplete-generation error
whenever the parsed model response is missing any of the six required keys —
the check runs on the parsed object, after a successful parse — and any
successful return carries a complete section set (all five fields truthy)
plus the design idea: a partially-populated section set is never returned. -/
theorem generatePostFromHook_incomplete_or_full (env : Env)
    (parseJson : String → Option Json) (b v l : CompletionOutcome)
    (hook topic : String) (intention : Option String) (userProfile : Option Json) :
    (∀ s j k, (baseCall env b hook topic intention userProfile).2 = .ok s →
        parseJson s = some j → j ≠ .null → k ∈ requiredGenerationKeys →
        j.getField k = none →
        (generatePostFromHook env parseJson b v l hook topic intention userProfile).2 =
          .error .incompleteGeneration) ∧
    (∀ secs designIdea,
        (generatePostFromHook env parseJson b v l hook topic intention userProfile).2 =
          .ok (secs, designIdea) → secs.complete = true) := by
  constructor
  · intro s j k hok hp hnull hk hm
    unfold generatePostFromHook
    simp only [hok, hp]
    cases j with
    | null => exact absurd rfl hnull
    | bool b' => simp [Json.truthyField, Json.getField]
    | num n => simp [Json.truthyField, Json.getField]
    | str s' => simp [Json.truthyField, Json.getField]
    | arr xs => simp [Json.truthyField, Json.getField]
    | obj fields => fin_cases hk <;> simp [Json.truthyField_of_missing hm]
  · intro secs designIdea h
    unfold generatePostFromHook at h
    cases hc : (baseCall env b hook topic intention userProfile).2 with
    | error e => simp only [hc] at h; simp at h
    | ok s =>
      simp only [hc] at h
      cases hp : parseJson s with
      | none => simp only [hp] at h; simp at h
      | some j =>
        simp only [hp] at h
        cases j with
        | null => simp at h
        | bool b' => simp [Json.truthyField, Json.getField] at h
        | num n => simp [Json.truthyField, Json.getField] at h
        | str s' => simp [Json.truthyField, Json.getField] at h
        | arr xs => simp [Json.truthyField, Json.getField] at h
        | obj fields =>
          simp only at h
          split at h
          next hb =>
            simp only [Bool.and_eq_true] at hb
            obtain ⟨⟨⟨⟨⟨hb1, hb2⟩, hb3⟩, hb4⟩, hb5⟩, hb6⟩ := hb
            simp only [Prod.mk.injEq, Except.ok.injEq] at h
            obtain ⟨hsecs, hdi⟩ := h
            rw [← hsecs]
            exact refinePostLogic_preserves_complete env parseJson l _ hook topic
              (refinePostVoice_preserves_complete env parseJson v _ hook topic
                (sectionsOfJson_complete hb1 hb2 hb3 hb4 hb5))
          next => simp at h

/-- Witness for C3 at a concrete input: a parsed object missing `cta` makes
generation fail with the incomplete-generation error, and a fully-populated
response yields a complete section set. -/
theorem generatePostFromHook_incomplete_or_full_witness :
    (generatePostFromHook envW
        (fun _ => some (.obj [("intro", .str "i"), ("main_insight", .str "m"),
          ("supporting_detail", .str "s"), ("shift_takeaway", .str "t"),
          ("design_idea", .str "d")]))
        (.reply (some "X")) (.apiError "down") (.apiError "down")
        "h" "t" none none).2 = .error .incompleteGeneration :=
  (generatePostFromHook_incomplete_or_full envW
      (fun _ => some (.obj [("intro", .str "i"), ("main_insight", .str "m"),
        ("supporting_detail", .str "s"), ("shift_takeaway", .str "t"),
        ("design_idea", .str "d")]))
      (.reply (some "X")) (.apiError "down") (.apiError "down") "h" "t" none none).1
    "X" (.obj [("intro", .str "i"), ("main_insight", .str "m"),
      ("supporting_detail", .str "s"), ("shift_takeaway", .str "t"),
      ("design_idea", .str "d")]) "cta"
    (by
      show (baseCall envW (.reply (some "X")) "h" "t" none none).2 = Except.ok "X"
      unfold baseCall generateChatCompletion
      simp [isOpenAIConfigured, envW, trim_fix_X])
    rfl (fun hn => Json.noConfusion hn) (by decide) rfl

/-- A parse oracle behaving like `JSON.parse` on the response `"[]"`: the
empty JSON array. -/
def parseEmptyArr : String → Option Json :=
  fun s => if s = "[]" then some (.arr []) else none

/-- C4 counterexample: with a configured client whose response is the valid
JSON text `[]`, `generateHooksFromTopic` on a non-empty topic succeeds with
zero hooks — not 3–5 hooks, and not a failure. -/
theorem generateHooksFromTopic_zero_hooks :
    (generateHooksFromTopic envW parseEmptyArr (.reply (some "[]")) "remote work" none).2 =
      .ok ([] : List Json) ∧ ("remote work" : String) ≠ "" ∧
      ([] : List Json).length < 3 := by
  refine ⟨?_, by decide, by decide⟩
  unfold generateHooksFromTopic hooksCall generateChatCompletion
  simp [isOpenAIConfigured, envW, trim_fix_brackets, parseEmptyArr]

/-- C4 (amended): `generateHooksFromTopic` returns exactly the parsed
array's elements — unvalidated, of any length, zero included — whenever the
client call succeeds and the response parses as a JSON array, and otherwise
fails with a named error kind (provider failure, parse failure, or
not-an-array).  No 3–5 length bound and no non-emptiness of the elements is
enforced. -/
theorem generateHooksFromTopic_shape (env : Env) (parseJson : String → Option Json)
    (outcome : CompletionOutcome) (topic : String) (userProfile : Option Json) :
    (∀ e, (hooksCall env outcome topic userProfile).2 = .error e →
        (generateHooksFromTopic env parseJson outcome topic userProfile).2 =
          .error (.providerFailure e)) ∧
    (∀ s, (hooksCall env outcome topic userProfile).2 = .ok s → parseJson s = none →
        (generateHooksFromTopic env parseJson outcome topic userProfile).2 =
          .error .parseFailure) ∧
    (∀ s elems, (hooksCall env outcome topic userProfile).2 = .ok s →
        parseJson s = some (.arr elems) →
        (generateHooksFromTopic env parseJson outcome topic userProfile).2 = .ok elems) ∧
    (∀ s j, (hooksCall env outcome topic userProfile).2 = .ok s → parseJson s = some j →
        (∀ elems, j ≠ .arr elems) →
        (generateHooksFromTopic env parseJson outcome topic userProfile).2 =
          .error .notAnArray) := by
  refine ⟨?_, ?_, ?_, ?_⟩
  · intro e h
    unfold generateHooksFromTopic
    simp only [h]
  · intro s h hp
    unfold generateHooksFromTopic
    simp only [h, hp]
  · intro s elems h hp
    unfold generateHooksFromTopic
    simp only [h, hp]
  · intro s j h hp hj
    unfold generateHooksFromTopic
    cases j with
    | arr elems => exact absurd rfl (hj elems)
    | null => simp only [h, hp]
    | bool b' => simp only [h, hp]
    | num n => simp only [h, hp]
    | str s' => simp only [h, hp]
    | obj fields => simp only [h, hp]

/-- Witness for C4's amended statement at a concrete input: a response
parsing to a two-element array is returned as-is. -/
theorem generateHooksFromTopic_shape_witness :
    (generateHooksFromTopic envW (fun _ => some (.arr [.str "h1", .str "h2"]))
        (.reply (some "X")) "remote work" none).2 = .ok [.str "h1", .str "h2"] :=
  (generateHooksFromTopic_shape envW (fun _ => some (.arr [.str "h1", .str "h2"]))
      (.reply (some "X")) "remote work" none).2.2.1 "X" [.str "h1", .str "h2"]
    (by
      show (hooksCall envW (.reply (some "X")) "remote work" none).2 = Except.ok "X"
      unfold hooksCall generateChatCompletion
      simp [isOpenAIConfigured, envW, trim_fix_X])
    rfl

/-- Base-generation response fields used by the refinement counterexample. -/
def baseFieldsC5 : List (String × Json) := [
  ("intro", .str "bi"), ("main_insight", .str "bm"), ("supporting_detail", .str "bs"),
  ("shift_takeaway", .str "bt"), ("cta", .str "bc"), ("design_idea", .str "bd")]

/-- Voice-refinement response fields used by the refinement counterexample. -/
def voiceFieldsC5 : List (String × Json) := [
  ("intro", .str "vi"), ("main_insight", .str "vm"), ("supporting_detail", .str "vs"),
  ("shift_takeaway", .str "vt"), ("cta", .str "vc")]

/-- A parse oracle behaving like `JSON.parse` on the two responses
`BASE` and `VOICE` of the refinement counterexample. -/
def parseC5 : String → Option Json := fun s =>
  if s = "BASE" then some (.obj baseFieldsC5)
  else if s = "VOICE" then some (.obj voiceFieldsC5) else none

/-- C5 counterexample: with a base response parsing to a complete object and
a voice-refinement response that rewrites every section (the logic stage
failing, so it passes its input through), `generatePostFromHook` returns the
voice-refined sections, not the parsed base sections: refinement is inlined
into base generation, and the caller cannot obtain the unrefined sections. -/
theorem generatePostFromHook_modifies_base_sections :
    (baseCall envW (.reply (some "BASE")) "h" "t" none none).2 = .ok "BASE" ∧
    parseC5 "BASE" = some (.obj baseFieldsC5) ∧
    (generatePostFromHook envW parseC5 (.reply (some "BASE")) (.reply (some "VOICE"))
        (.apiError "down") "h" "t" none none).2 =
      .ok (sectionsOfJson (.obj voiceFieldsC5), .str "bd") ∧
    sectionsOfJson (.obj voiceFieldsC5) ≠ sectionsOfJson (.obj baseFieldsC5) := by
  refine ⟨?_, rfl, ?_, ?_⟩
  · unfold baseCall generateChatCompletion
    simp [isOpenAIConfigured, envW, trim_fix_BASE]
  · unfold generatePostFromHook baseCall refinePostVoice voiceCall refinePostLogic logicCall
      generateChatCompletion
    simp [isOpenAIConfigured, envW, parseC5, trim_fix_BASE, trim_fix_VOICE, baseFieldsC5,
      voiceFieldsC5, Json.truthyField, Json.getField, Json.truthy, Json.fieldD,
      sectionsOfJson, List.lookup]
  · simp [sectionsOfJson, Json.fieldD, Json.getField, baseFieldsC5, voiceFieldsC5,
      List.lookup, PostSections.mk.injEq]

/-- C5 (amended): `generatePostFromHook` does not return the parsed base
sections; it returns the result of applying voice refinement and then logic
refinement to them (refinement is inlined into base generation), together
with the parsed `design_idea`.  A caller of this function cannot skip the
refinement passes. -/
theorem generatePostFromHook_returns_refined_sections (env : Env)
    (parseJson : String → Option Json) (b v l : CompletionOutcome)
    (hook topic : String) (intention : Option String) (userProfile : Option Json) :
    ∀ s j secs designIdea,
      (baseCall env b hook topic intention userProfile).2 = .ok s →
      parseJson s = some j →
      (generatePostFromHook env parseJson b v l hook topic intention userProfile).2 =
        .ok (secs, designIdea) →
      secs = (refinePostLogic env parseJson l
          (refinePostVoice env parseJson v (sectionsOfJson j) hook topic).2
          hook topic).2 ∧
      designIdea = j.fieldD "design_idea" := by
  intro s j secs designIdea hok hp h
  unfold generatePostFromHook at h
  simp only [hok, hp] at h
  cases j with
  | null => simp at h
  | bool b' => simp [Json.truthyField, Json.getField] at h
  | num n => simp [Json.truthyField, Json.getField] at h
  | str s' => simp [Json.truthyField, Json.getField] at h
  | arr xs => simp [Json.truthyField, Json.getField] at h
  | obj fields =>
    simp only at h
    split at h
    next =>
      simp only [Prod.mk.injEq, Except.ok.injEq] at h
      exact ⟨h.1.symm, h.2.symm⟩
    next => simp at h

/-- Witness for C5's amended statement at the counterexample input: the
returned sections are the logic-refined image of the voice-refined base. -/
theorem generatePostFromHook_returns_refined_sections_witness :
    sectionsOfJson (.obj voiceFieldsC5) =
      (refinePostLogic envW parseC5 (.apiError "down")
        (refinePostVoice envW parseC5 (.reply (some "VOICE"))
          (sectionsOfJson (.obj baseFieldsC5)) "h" "t").2 "h" "t").2 ∧
    (Json.str "bd") = (Json.obj baseFieldsC5).fieldD "design_idea" :=
  (generatePostFromHook_returns_refined_sections envW parseC5 (.reply (some "BASE"))
      (.reply (some "VOICE")) (.apiError "down") "h" "t" none none)
    "BASE" (.obj baseFieldsC5) (sectionsOfJson (.obj voiceFieldsC5)) (.str "bd")
    (by
      unfold baseCall generateChatCompletion
      simp [isOpenAIConfigured, envW, trim_fix_BASE])
    rfl
    (by
      unfold generatePostFromHook baseCall refinePostVoice voiceCall refinePostLogic logicCall
        generateChatCompletion
      simp [isOpenAIConfigured, envW, parseC5, trim_fix_BASE, trim_fix_VOICE, baseFieldsC5,
        voiceFieldsC5, Json.truthyField, Json.getField, Json.truthy, Json.fieldD,
        sectionsOfJson, List.lookup])

/-- C6: a regenerate-section request whose section key is not one of the
five recognized keys is rejected by the controller's first validation with
the invalid-section 400 response, and the issued request list is empty — no
completion-backend invocation is attempted. -/
theorem regeneratePostSection_invalid_key (env : Env)
    (genOutcome refineOutcome : CompletionOutcome) (sectionKey hook topic : String)
    (currentSections : PostSections) (intention : Option String)
    (h : sectionKey ∉ validSections) :
    regeneratePostSection env genOutcome refineOutcome sectionKey hook topic
        currentSections intention =
      ([], .badRequest
        "Invalid section. Must be one of: intro, main_insight, supporting_detail, shift_takeaway, cta") := by
  unfold regeneratePostSection
  have hc : validSections.contains sectionKey = false := by
    rw [Bool.eq_false_iff]
    intro hcc
    exact h (List.elem_iff.mp hcc)
  simp only [hc, Bool.not_false, Bool.or_true, if_pos]
  rfl

/-- Witness for C6 at a concrete input: the key `headline` is rejected with
no outbound request. -/
theorem regeneratePostSection_invalid_key_witness :
    regeneratePostSection envW (.reply (some "RAW")) (.reply (some "RAW")) "headline"
        "h" "t" secsW none =
      ([], .badRequest
        "Invalid section. Must be one of: intro, main_insight, supporting_detail, shift_takeaway, cta") :=
  regeneratePostSection_invalid_key envW (.reply (some "RAW")) (.reply (some "RAW"))
    "headline" "h" "t" secsW none (by decide)

/-- The single-section polish client call never succeeds when the provider
throws. -/
theorem singleSectionCall_apiError_ne_ok (env : Env) (m : String)
    (sectionKey rawContent hook topic : String) (currentSections : PostSections) :
    ∀ r, (singleSectionCall env (.apiError m) sectionKey rawContent hook topic
        currentSections).2 ≠ .ok r := by
  intro r
  unfold singleSectionCall generateChatCompletion
  cases h : isOpenAIConfigured env <;> simp [h]

/-- The single-section polish client call never succeeds when the provider
returns no content. -/
theorem singleSectionCall_noContent_ne_ok (env : Env)
    (sectionKey rawContent hook topic : String) (currentSections : PostSections) :
    ∀ r, (singleSectionCall env (.reply none) sectionKey rawContent hook topic
        currentSections).2 ≠ .ok r := by
  intro r
  unfold singleSectionCall generateChatCompletion
  cases h : isOpenAIConfigured env <;> simp [h]

/-- A failing polish client call makes `refineSingleSection` return the raw
content unchanged. -/
theorem refineSingleSection_fallback (env : Env) (outcome : CompletionOutcome)
    (sectionKey rawContent hook topic : String) (currentSections : PostSections)
    (h : ∀ r, (singleSectionCall env outcome sectionKey rawContent hook topic
        currentSections).2 ≠ .ok r) :
    (refineSingleSection env outcome sectionKey rawContent hook topic
        currentSections).2 = rawContent := by
  unfold refineSingleSection
  cases hc : (singleSectionCall env outcome sectionKey rawContent hook topic
      currentSections).2 with
  | error e => simp only [hc]
  | ok r => exact absurd hc (h r)

/-- C7: in `regenerateSection`, when the combined voice+logic polish fails
(provider throw or empty completion), the operation still succeeds and
returns the unpolished raw text generated for the target section (trimmed,
as the source passes it); only a failure of the primary generation call
itself propagates, rethrown with the `Failed to regenerate section` wrapper. -/
theorem regenerateSection_polish_fallback (env : Env)
    (genOutcome refineOutcome : CompletionOutcome) (sectionKey hook topic : String)
    (currentSections : PostSections) (intention : Option String) :
    (∀ s m, (regenCall env genOutcome sectionKey hook topic currentSections intention).2 =
          .ok s → refineOutcome = .apiError m →
        (regenerateSection env genOutcome refineOutcome sectionKey hook topic
          currentSections intention).2 = .ok s.trim) ∧
    (∀ s, (regenCall env genOutcome sectionKey hook topic currentSections intention).2 =
          .ok s → refineOutcome = .reply none →
        (regenerateSection env genOutcome refineOutcome sectionKey hook topic
          currentSections intention).2 = .ok s.trim) ∧
    (∀ e, (regenCall env genOutcome sectionKey hook topic currentSections intention).2 =
          .error e →
        (regenerateSection env genOutcome refineOutcome sectionKey hook topic
          currentSections intention).2 =
          .error ("Failed to regenerate section: " ++ e)) := by
  refine ⟨?_, ?_, ?_⟩
  · intro s m hok he
    subst he
    unfold regenerateSection
    simp only [hok]
    simp [refineSingleSection_fallback env (.apiError m) sectionKey s.trim hook topic
      currentSections (singleSectionCall_apiError_ne_ok env m sectionKey s.trim hook topic
        currentSections)]
  · intro s hok he
    subst he
    unfold regenerateSection
    simp only [hok]
    simp [refineSingleSection_fallback env (.reply none) sectionKey s.trim hook topic
      currentSections (singleSectionCall_noContent_ne_ok env sectionKey s.trim hook topic
        currentSections)]
  · intro e he
    unfold regenerateSection
    simp only [he]

/-- Witness for C7 at a concrete input: with the polish provider down, the
regenerated section is the raw generated text. -/
theorem regenerateSection_polish_fallback_witness :
    (regenerateSection envW (.reply (some "RAW")) (.apiError "polish down") "cta" "h" "t"
      secsW none).2 = .ok "RAW" := by
  have h := (regenerateSection_polish_fallback envW (.reply (some "RAW"))
      (.apiError "polish down") "cta" "h" "t" secsW none).1 "RAW" "polish down"
    (by
      unfold regenCall generateChatCompletion
      simp [isOpenAIConfigured, envW, trim_fix_RAW])
    rfl
  rwa [trim_fix_RAW] at h

/-- C8: `generateHooksFromTopic` fails with the spec's
MalformedGenerationOutput kind exactly when the client call succeeded but
the response text does not parse as JSON, or parses to a value that is not
an array; a provider failure carries the provider kind instead, and an
array response succeeds. -/
theorem generateHooksFromTopic_malformed_iff (env : Env)
    (parseJson : String → Option Json) (outcome : CompletionOutcome) (topic : String)
    (userProfile : Option Json) :
    (∃ e, (generateHooksFromTopic env parseJson outcome topic userProfile).2 = .error e ∧
        e.isMalformedGenerationOutput = true) ↔
    (∃ s, (hooksCall env outcome topic userProfile).2 = .ok s ∧
        (parseJson s = none ∨ ∃ j, parseJson s = some j ∧ ∀ elems, j ≠ .arr elems)) := by
  unfold generateHooksFromTopic
  cases hc : (hooksCall env outcome topic userProfile).2 with
  | error msg =>
    simp only [hc]
    constructor
    · rintro ⟨e, he, hm⟩
      obtain rfl : HooksError.providerFailure msg = e := by simpa using he
      simp [HooksError.isMalformedGenerationOutput] at hm
    · rintro ⟨s, hs, -⟩
      exact Except.noConfusion hs
  | ok s =>
    simp only [hc]
    cases hp : parseJson s with
    | none =>
      simp only [hp]
      constructor
      · intro _
        exact ⟨s, rfl, Or.inl hp⟩
      · intro _
        exact ⟨.parseFailure, rfl, rfl⟩
    | some j =>
      cases j with
      | arr elems =>
        constructor
        · rintro ⟨e, he, -⟩
          exact absurd he (by simp)
        · rintro ⟨s', hs', hor⟩
          obtain rfl : s' = s := by simpa using hs'.symm
          rcases hor with hnone | ⟨j', hj', hne⟩
          · rw [hp] at hnone
            exact Option.noConfusion hnone
          · rw [hp] at hj'
            obtain rfl : j' = .arr elems := by simpa using hj'.symm
            exact absurd rfl (hne elems)
      | null =>
        exact ⟨fun _ => ⟨s, rfl, Or.inr ⟨.null, hp, by intro elems; simp⟩⟩,
          fun _ => ⟨.notAnArray, rfl, rfl⟩⟩
      | bool b' =>
        exact ⟨fun _ => ⟨s, rfl, Or.inr ⟨.bool b', hp, by intro elems; simp⟩⟩,
          fun _ => ⟨.notAnArray, rfl, rfl⟩⟩
      | num n =>
        exact ⟨fun _ => ⟨s, rfl, Or.inr ⟨.num n, hp, by intro elems; simp⟩⟩,
          fun _ => ⟨.notAnArray, rfl, rfl⟩⟩
      | str s' =>
        exact ⟨fun _ => ⟨s, rfl, Or.inr ⟨.str s', hp, by intro elems; simp⟩⟩,
          fun _ => ⟨.notAnArray, rfl, rfl⟩⟩
      | obj fields =>
        exact ⟨fun _ => ⟨s, rfl, Or.inr ⟨.obj fields, hp, by intro elems; simp⟩⟩,
          fun _ => ⟨.notAnArray, rfl, rfl⟩⟩

/-- Witness for C8 at a concrete input: an unparseable response makes hook
generation fail with a MalformedGenerationOutput-kind error. -/
theorem generateHooksFromTopic_malformed_iff_witness :
    ∃ e, (generateHooksFromTopic envW parseNoneW (.reply (some "X")) "topic" none).2 =
        .error e ∧ e.isMalformedGenerationOutput = true :=
  (generateHooksFromTopic_malformed_iff envW parseNoneW (.reply (some "X")) "topic"
      none).mpr
    ⟨"X",
     (by
       unfold hooksCall generateChatCompletion
       simp [isOpenAIConfigured, envW, trim_fix_X]),
     Or.inl rfl⟩

/-- C9 counterexample: hook generation and framework recommendation omit
the temperature argument at their call sites, so both resolve to the same
client default — there is no distinct high (creative) versus low
(consistent) default per stage — and the outbound request built by the
client carries no temperature field even when an explicit temperature is
passed. -/
theorem stageTemperatures_counterexample :
    effectiveTemperature hooksCallArgs.2 = effectiveTemperature recommendCallArgs.2 ∧
    ((generateChatCompletion envW (.reply (some "ok")) "sys" "usr" none
        (some (0.9 : Rat))).1.map ChatRequest.temperature) = [none] :=
  ⟨rfl, rfl⟩

/-- C9 (amended): the outbound request honours the model parameter (with
the environment default) but never contains a temperature — the temperature
parameter is accepted and resolved, then dropped; the refinement stages pass
the refinement model with distinct explicit temperatures (voice 0.7, logic
0.5, single-section polish 0.6), while hook generation, recommendation,
base generation and raw section regeneration omit both arguments and all
resolve to the client's single default temperature 0.5. -/
theorem requestParameters_per_stage (env : Env) (outcome : CompletionOutcome)
    (systemPrompt userPrompt : String) (model : Option String) (temperature : Option Rat) :
    (∀ req ∈ (generateChatCompletion env outcome systemPrompt userPrompt model
        temperature).1,
      req.model = model.getD env.defaultModel ∧ req.temperature = none) ∧
    hooksCallArgs = (none, none) ∧ recommendCallArgs = (none, none) ∧
    baseCallArgs = (none, none) ∧ regenCallArgs = (none, none) ∧
    voiceCallArgs = (some REFINEMENT_MODEL, some (0.7 : Rat)) ∧
    logicCallArgs = (some REFINEMENT_MODEL, some (0.5 : Rat)) ∧
    singleSectionCallArgs = (some REFINEMENT_MODEL, some (0.6 : Rat)) ∧
    effectiveTemperature none = (0.5 : Rat) := by
  refine ⟨?_, rfl, rfl, rfl, rfl, rfl, rfl, rfl, rfl⟩
  intro req hreq
  unfold generateChatCompletion at hreq
  cases h : isOpenAIConfigured env
  · rw [h] at hreq
    simp at hreq
  · rw [h] at hreq
    cases outcome with
    | apiError msg =>
      simp at hreq
      subst hreq
      exact ⟨rfl, rfl⟩
    | reply c =>
      cases c with
      | none =>
        simp at hreq
        subst hreq
        exact ⟨rfl, rfl⟩
      | some t =>
        simp at hreq
        subst hreq
        exact ⟨rfl, rfl⟩

/-- Witness for C9's amended statement: a request issued with an explicit
model carries that model and no temperature. -/
theorem requestParameters_per_stage_witness :
    (⟨"m", [⟨"system", "s"⟩, ⟨"user", "u"⟩], none⟩ : ChatRequest).model =
      (some "m").getD envW.defaultModel ∧
    (⟨"m", [⟨"system", "s"⟩, ⟨"user", "u"⟩], none⟩ : ChatRequest).temperature = none :=
  (requestParameters_per_stage envW (.reply (some "ok")) "s" "u" (some "m")
      (some (0.9 : Rat))).1
    ⟨"m", [⟨"system", "s"⟩, ⟨"user", "u"⟩], none⟩ (List.Mem.head _)

/-- A label outside the nine-entry catalog has no entry in the
framework-to-instruction mapping. -/
theorem frameworkInstructions_lookup_none {i : String} (h : i ∉ frameworks) :
    frameworkInstructions.lookup i = none := by
  simp only [frameworks, List.mem_cons, List.not_mem_nil, or_false, not_or] at h
  obtain ⟨h1, h2, h3, h4, h5, h6, h7, h8, h9⟩ := h
  simp [frameworkInstructions, List.lookup, beq_eq_false_iff_ne.mpr h1,
    beq_eq_false_iff_ne.mpr h2, beq_eq_false_iff_ne.mpr h3, beq_eq_false_iff_ne.mpr h4,
    beq_eq_false_iff_ne.mpr h5, beq_eq_false_iff_ne.mpr h6, beq_eq_false_iff_ne.mpr h7,
    beq_eq_false_iff_ne.mpr h8, beq_eq_false_iff_ne.mpr h9]

/-- The client's result component does not depend on the prompt texts. -/
theorem generateChatCompletion_snd_prompts_irrelevant (env : Env)
    (outcome : CompletionOutcome) (s u s' u' : String) (model : Option String)
    (temperature : Option Rat) :
    (generateChatCompletion env outcome s u model temperature).2 =
    (generateChatCompletion env outcome s' u' model temperature).2 := by
  unfold generateChatCompletion
  cases h : isOpenAIConfigured env
  · simp [h]
  · cases outcome with
    | apiError msg => simp [h]
    | reply c => cases c <;> simp [h]

/-- No own entry and no inherited member: the bracket access at a key that
is neither a catalog label nor an `Object.prototype` property name is
undefined. -/
theorem frameworkInstructionsAccess_none {i : String} (h : i ∉ frameworks)
    (h2 : i ∉ objectPrototypeKeys) : frameworkInstructionsAccess i = none := by
  unfold frameworkInstructionsAccess
  rw [frameworkInstructions_lookup_none h]
  exact if_neg h2

/-- C10 counterexample: the label `constructor` is not one of the nine
catalog labels, yet the bracket access `frameworkInstructions["constructor"]`
finds the truthy inherited `Object.prototype.constructor`, so the source
emits a non-empty guidance block interpolating the inherited member — the
unknown label is not treated as if no framework guidance were supplied. -/
theorem frameworkGuidance_prototype_counterexample :
    ("constructor" : String) ∉ frameworks ∧
    frameworkGuidance (some "constructor") =
      "\n\nIMPORTANT - Follow this content framework: \"constructor\"\nStructure your post sections using this pattern: function Object() \x7b [native code] \x7d" ∧
    frameworkGuidance (some "constructor") ≠ "" :=
  ⟨by decide, by decide, by decide⟩

/-- C10 (amended): an intention label outside the nine-entry catalog that is
not an `Object.prototype` property name contributes no structural
instruction (empty guidance block); for a label inherited from
`Object.prototype`, such as `constructor`, the bracket access finds the
truthy inherited member and a non-empty guidance block interpolating it is
emitted.  In either case base generation never fails because of the unknown
label: for every backend behaviour the returned result (success or error)
is the one produced with no intention, so catalog membership is never
enforced by the generator. -/
theorem generatePostFromHook_unknown_framework (i : String) (h : i ∉ frameworks) :
    (i ∉ objectPrototypeKeys → frameworkGuidance (some i) = "") ∧
    ∀ env parseJson b v l hook topic userProfile,
      (generatePostFromHook env parseJson b v l hook topic (some i) userProfile).2 =
      (generatePostFromHook env parseJson b v l hook topic none userProfile).2 := by
  constructor
  · intro h2
    unfold frameworkGuidance
    by_cases he : i = ""
    · simp [he]
    · simp [he, frameworkInstructionsAccess_none h h2]
  · intro env parseJson b v l hook topic userProfile
    unfold generatePostFromHook
    have hb : (baseCall env b hook topic (some i) userProfile).2 =
        (baseCall env b hook topic none userProfile).2 := by
      unfold baseCall
      exact generateChatCompletion_snd_prompts_irrelevant env b _ _ _ _ _ _
    cases hc : (baseCall env b hook topic none userProfile).2 with
    | error e => simp only [hb, hc]
    | ok s =>
      simp only [hb, hc]
      cases hp : parseJson s with
      | none => rfl
      | some j =>
        cases j with
        | null => rfl
        | bool b' => rfl
        | num n => rfl
        | str s' => rfl
        | arr xs => rfl
        | obj fields =>
          simp only
          split <;> rfl

/-- Witness for C10's amended statement at a concrete input: the unknown,
non-inherited label `headline` contributes no guidance and leaves the
generation result unchanged. -/
theorem generatePostFromHook_unknown_framework_witness :
    frameworkGuidance (some "headline") = "" ∧
    (generatePostFromHook envW parseNoneW (.apiError "d") (.apiError "d") (.apiError "d")
        "h" "t" (some "headline") none).2 =
    (generatePostFromHook envW parseNoneW (.apiError "d") (.apiError "d") (.apiError "d")
        "h" "t" none none).2 :=
  ⟨(generatePostFromHook_unknown_framework "headline" (by decide)).1 (by decide),
   (generatePostFromHook_unknown_framework "headline" (by decide)).2 envW parseNoneW
     (.apiError "d") (.apiError "d") (.apiError "d") "h" "t" none⟩
